import Mathlib

/-
Verification of warehouse/sessions.py: the Session entity (dirty-tracking
mapping, flash queues, CSRF tokens) and the SessionFactory (load on request,
persist on response), shallowly embedded in Lean 4.

External collaborators are embedded as parameters:
  - the Signer (warehouse.utils.crypto.TimestampSigner) as a pair of
    functions sign / unsign, with unsign returning none on bad signature or
    expiry, matching the spec's Signer interface;
  - the Serializer (msgpack) as packb / unpackb over an abstract Blob type,
    with unpackb returning none on decode failure;
  - random token generation (crypto.random_token) and the clock
    (time.time) as explicit fresh-token / now arguments.
Python exceptions that escape an operation are modelled by an Option result:
none means the call raised.
-/

set_option autoImplicit false

/-- Universe of JSON-like session values stored in the mapping: strings,
integers, booleans, and lists of strings (the shape the session core itself
creates, e.g. flash queues are lists of string messages). -/
inductive Value where
  | str (s : String)
  | int (n : Int)
  | boolean (b : Bool)
  | strList (xs : List String)
  deriving DecidableEq, Repr

/-- Session data: an insertion-ordered association list with unique keys,
the shallow embedding of a Python dict with string keys. -/
abbrev Data := List (String × Value)

/-- Python dict lookup: first (unique) binding of the key. -/
def dlookup : Data → String → Option Value
  | [], _ => none
  | (k1, v1) :: rest, k => if k1 = k then some v1 else dlookup rest k

/-- Python dict assignment: overwrite in place if the key is present,
otherwise append (preserving insertion order). -/
def dinsert : Data → String → Value → Data
  | [], k, v => [(k, v)]
  | (k1, v1) :: rest, k, v =>
      if k1 = k then (k1, v) :: rest else (k1, v1) :: dinsert rest k v

/-- Python dict deletion of the (unique) binding of a key. -/
def dremove : Data → String → Data
  | [], _ => []
  | (k1, v1) :: rest, k => if k1 = k then rest else (k1, v1) :: dremove rest k

/-- The Session entity of sessions.py: the dict contents plus the tracked
state set up in Session.__init__. -/
structure Session where
  data : Data
  _sid : Option String
  _changed : Bool
  new : Bool
  created : Nat
  invalidated : Bool
  deriving DecidableEq, Repr

/-- Session.__init__(data=None, session_id=None, new=True): the dict is
initialized with data (empty when None), _changed is False, created is the
current time, invalidated is False. The now argument is time.time(). -/
def Session.init (data : Data) (session_id : Option String) (new : Bool)
    (now : Nat) : Session :=
  ⟨data, session_id, false, new, now, false⟩

/-- Session.changed: sets the dirty flag. -/
def Session.changed (s : Session) : Session :=
  { s with _changed := true }

/-- Session.should_save: returns the dirty flag. -/
def Session.should_save (s : Session) : Bool :=
  s._changed

/-- The sid property: lazily generates a random token on first access.
The fresh argument stands for crypto.random_token(). Returns the id and the
possibly-updated session. -/
def Session.sidAccess (fresh : String) (s : Session) : String × Session :=
  match s._sid with
  | some t => (t, s)
  | none => (fresh, { s with _sid := some fresh })

/-- The sid deleter: clears the stored identifier. -/
def Session.delSid (s : Session) : Session :=
  { s with _sid := none }

/-- Session.__setitem__, wrapped by _changed_method: calls changed() then
performs the dict assignment. -/
def Session.setitem (s : Session) (k : String) (v : Value) : Session :=
  let s := s.changed
  { s with data := dinsert s.data k v }

/-- Session.__delitem__, wrapped by _changed_method: changed() runs first,
so the dirty flag is set even when the deletion raises KeyError. The Bool
reports whether the key existed (false means KeyError was raised). -/
def Session.delitem (s : Session) (k : String) : Session × Bool :=
  let s := s.changed
  match dlookup s.data k with
  | some _ => ({ s with data := dremove s.data k }, true)
  | none => (s, false)

/-- Session.clear, wrapped by _changed_method. -/
def Session.clear (s : Session) : Session :=
  let s := s.changed
  { s with data := [] }

/-- Session.pop with default None (dict.pop(key, None)), wrapped by
_changed_method: changed() runs unconditionally; returns the removed value
or none when the key was absent. -/
def Session.pop (s : Session) (k : String) : Session × Option Value :=
  let s := s.changed
  match dlookup s.data k with
  | some v => ({ s with data := dremove s.data k }, some v)
  | none => (s, none)

/-- Session.popitem, wrapped by _changed_method: removes and returns the
last inserted entry; none means KeyError on an empty dict (the dirty flag
is still set, since changed() runs first). -/
def Session.popitem (s : Session) : Session × Option (String × Value) :=
  let s := s.changed
  match s.data.getLast? with
  | some kv => ({ s with data := s.data.dropLast }, some kv)
  | none => (s, none)

/-- Session.setdefault, wrapped by _changed_method: returns the existing
value, or inserts and returns the default. -/
def Session.setdefault (s : Session) (k : String) (d : Value) :
    Session × Value :=
  let s := s.changed
  match dlookup s.data k with
  | some v => (s, v)
  | none => ({ s with data := dinsert s.data k d }, d)

/-- Session.update, wrapped by _changed_method: inserts every entry of the
argument in order. -/
def Session.update (s : Session) (other : Data) : Session :=
  let s := s.changed
  { s with data := other.foldl (fun d kv => dinsert d kv.1 kv.2) s.data }

/-- Session.get with default None: plain dict read, no dirty marking. -/
def Session.get (s : Session) (k : String) : Option Value :=
  dlookup s.data k

/-- Session.invalidate: self.clear() (which marks dirty), then new = True,
created reset to the current time, invalidated = True, and finally
_changed = False. -/
def Session.invalidate (s : Session) (now : Nat) : Session :=
  let s := s.clear
  { s with new := true, created := now, invalidated := true,
           _changed := false }

/-- The reserved key Session._csrf_token_key. -/
def _csrf_token_key : String := "_csrf_token"

/-- The reserved key-prefix Session._flash_key. -/
def _flash_key : String := "_flash_messages"

/-- Session._get_flash_queue_key: ".".join(filter(None, [_flash_key,
queue])); filter(None, ...) drops the empty queue name, so the default
queue maps to _flash_key alone. -/
def _get_flash_queue_key (queue : String) : String :=
  if queue = "" then _flash_key else _flash_key ++ "." ++ queue

/-- The append step of Session.flash: self.setdefault(queue_key,
[]).append(msg). The setdefault call is wrapped by _changed_method, so it
marks the session dirty; none models the AttributeError raised when the
stored value is not a list. -/
def Session.flashAppend (s : Session) (qk : String) (msg : String) :
    Option Session :=
  let s := s.changed
  match dlookup s.data qk with
  | none => some { s with data := dinsert s.data qk (Value.strList [msg]) }
  | some (Value.strList xs) =>
      some { s with data := dinsert s.data qk (Value.strList (xs ++ [msg])) }
  | some _ => none

/-- Session.flash(msg, queue, allow_duplicate). When allow_duplicate is
False the source evaluates msg in self[queue_key]; __getitem__ is the plain
dict one (not wrapped), so a missing queue key raises KeyError (modelled by
none). When the message is already queued the method returns with no
change; otherwise it appends via setdefault. -/
def Session.flash (s : Session) (msg : String) (queue : String)
    (allow_duplicate : Bool) : Option Session :=
  let qk := _get_flash_queue_key queue
  if allow_duplicate = false then
    match dlookup s.data qk with
    | none => none
    | some (Value.strList xs) =>
        if msg ∈ xs then some s else Session.flashAppend s qk msg
    | some _ => none
  else
    Session.flashAppend s qk msg

/-- Session.peek_flash: self.get(queue_key, []) — a plain read with the
empty list as default, no dirty marking. -/
def Session.peek_flash (s : Session) (queue : String) : Value :=
  (dlookup s.data (_get_flash_queue_key queue)).getD (Value.strList [])

/-- Session.pop_flash: reads the queue with default [], then
self.pop(queue_key, None) (wrapped, so it always marks dirty), returning
the messages. -/
def Session.pop_flash (s : Session) (queue : String) : Session × Value :=
  let qk := _get_flash_queue_key queue
  let messages := (dlookup s.data qk).getD (Value.strList [])
  let out := Session.pop s qk
  (out.1, messages)

/-- Session.new_csrf_token: stores crypto.random_token() (the fresh
argument) under the reserved key via the wrapped __setitem__ (marking
dirty) and returns it. -/
def Session.new_csrf_token (fresh : String) (s : Session) :
    String × Session :=
  (fresh, Session.setitem s _csrf_token_key (Value.str fresh))

/-- Session.get_csrf_token: returns the stored token, generating one via
new_csrf_token only when the key is absent (self.get returned None). -/
def Session.get_csrf_token (fresh : String) (s : Session) :
    Value × Session :=
  match dlookup s.data _csrf_token_key with
  | some v => (v, s)
  | none =>
      let out := Session.new_csrf_token fresh s
      (Value.str out.1, out.2)

/-- Session.has_csrf_token: membership test, no generation. -/
def Session.has_csrf_token (s : Session) : Bool :=
  (dlookup s.data _csrf_token_key).isSome

/-- Session.get_scoped_csrf_token: with hmac_sha512 key msg standing for
hmac.new(key.encode, msg.encode, sha512).hexdigest(), computes
hmac_sha512(hmac_sha512(unscoped_token, scope), sid). The freshTok and
freshSid arguments feed the lazy token and id generation; none models the
AttributeError when the stored token is not a string (encode would fail). -/
def Session.get_scoped_csrf_token (hmac_sha512 : String → String → String)
    (freshTok freshSid : String) (s : Session) (scope : String) :
    Option (String × Session) :=
  let out := Session.get_csrf_token freshTok s
  match out.1 with
  | Value.str unscoped =>
      let scopedTok := hmac_sha512 unscoped scope
      let out2 := Session.sidAccess freshSid out.2
      some (hmac_sha512 scopedTok out2.1, out2.2)
  | _ => none

/-- The key-value store (redis) as an association list of key to value and
remaining TTL, abstract in the blob type. -/
abbrev Store (Blob : Type) := List (String × Blob × Nat)

/-- redis GET. -/
def storeGet {Blob : Type} : Store Blob → String → Option (Blob × Nat)
  | [], _ => none
  | (k1, b, ttl) :: rest, k =>
      if k1 = k then some (b, ttl) else storeGet rest k

/-- redis DELETE: removes every binding of the key. -/
def storeDelete {Blob : Type} : Store Blob → String → Store Blob
  | [], _ => []
  | (k1, b, ttl) :: rest, k =>
      if k1 = k then storeDelete rest k
      else (k1, b, ttl) :: storeDelete rest k

/-- redis SETEX key ttl value: stores the value under the key with the
given expiry, replacing any previous binding. -/
def storeSetex {Blob : Type} (st : Store Blob) (k : String) (ttl : Nat)
    (b : Blob) : Store Blob :=
  (k, b, ttl) :: storeDelete st k

/-- The set_cookie instruction recorded on the response. -/
structure SetCookie where
  name : String
  value : String
  maxAge : Nat
  httponly : Bool
  secure : Bool
  deriving DecidableEq, Repr

/-- The cookie instructions the factory issues on a response:
delete_cookie and set_cookie calls. -/
structure Response where
  deletedCookie : Bool
  cookieSet : Option SetCookie
  deriving DecidableEq, Repr

/-- The response before the factory touches it. -/
def Response.initial : Response := ⟨false, none⟩

/-- SessionFactory.cookie_name. -/
def cookie_name : String := "session_id"

/-- SessionFactory.max_age = 12 * 60 * 60 seconds. -/
def max_age : Nat := 12 * 60 * 60

/-- SessionFactory._redis_key: "warehouse/session/data/{}".format(id). -/
def _redis_key (session_id : String) : String :=
  "warehouse/session/data/" ++ session_id

/-- SessionFactory._process_request, embedded over the Signer (unsign) and
Serializer (unpackb) collaborators. cookies is request.cookies.get of the
cookie name; now is time.time() for the constructed session. Every failure
branch of the source (no cookie, BadSignature or expiry from unsign,
missing redis key, msgpack unpack failure) returns Session(), so the
function is total: no exception escapes to the caller. In the success
branch the source builds Session(data, session_id) without the third
argument, so the new flag keeps its default True. -/
def _process_request {Blob : Type} (unsign : String → Nat → Option String)
    (unpackb : Blob → Option Data) (store : Store Blob)
    (cookies : Option String) (now : Nat) : Session :=
  match cookies with
  | none => Session.init [] none true now
  | some cookieVal =>
    match unsign cookieVal max_age with
    | none => Session.init [] none true now
    | some session_id =>
      match storeGet store (_redis_key session_id) with
      | none => Session.init [] none true now
      | some bentry =>
        match unpackb bentry.1 with
        | none => Session.init [] none true now
        | some data => Session.init data (some session_id) true now

/-- The outcome of SessionFactory._process_response: the session (whose
_sid may have been generated or reset), the store, and the response. -/
structure ResponseOutcome (Blob : Type) where
  session : Session
  store : Store Blob
  response : Response
  deriving Repr

/-- SessionFactory._process_response, embedded over the Signer (sign) and
Serializer (packb). If the session is invalidated: delete the redis entry
at the session's key (the sid property may lazily generate, consuming
fresh1), reset the sid, and delete the cookie only when should_save() is
false. Then, independently, if should_save(): SETEX the packed data under
the derived key with expiry max_age (the sid property may generate again,
consuming fresh2) and set the cookie to the signed sid with the same
max-age, httponly, and secure iff request.scheme == "https". -/
def _process_response {Blob : Type} (sign : String → String)
    (packb : Data → Blob) (fresh1 fresh2 : String) (sess : Session)
    (store : Store Blob) (scheme : String) : ResponseOutcome Blob :=
  let resp := Response.initial
  let mid : ResponseOutcome Blob :=
    if sess.invalidated then
      let out := Session.sidAccess fresh1 sess
      let store := storeDelete store (_redis_key out.1)
      let sess := Session.delSid out.2
      let resp :=
        if sess.should_save = false then
          { resp with deletedCookie := true }
        else resp
      ⟨sess, store, resp⟩
    else ⟨sess, store, resp⟩
  if mid.session.should_save then
    let out := Session.sidAccess fresh2 mid.session
    let store :=
      storeSetex mid.store (_redis_key out.1) max_age (packb out.2.data)
    let resp :=
      { mid.response with
          cookieSet := some ⟨cookie_name, sign out.1, max_age, true,
                             scheme == "https"⟩ }
    ⟨out.2, store, resp⟩
  else mid

/-- Setting each entry of a mapping on a session, in order, through the
wrapped __setitem__. -/
def setAll (s : Session) (m : Data) : Session :=
  m.foldl (fun s kv => Session.setitem s kv.1 kv.2) s

/- Helper lemmas about the dict and store embeddings. -/

theorem dlookup_dinsert_self (d : Data) (k : String) (v : Value) :
    dlookup (dinsert d k v) k = some v := by
  induction d with
  | nil => simp [dinsert, dlookup]
  | cons hd tl ih =>
      obtain ⟨k1, v1⟩ := hd
      by_cases h : k1 = k <;> simp [dinsert, dlookup, h, ih]

theorem dinsert_of_not_mem (d : Data) (k : String) (v : Value)
    (h : k ∉ d.map Prod.fst) : dinsert d k v = d ++ [(k, v)] := by
  induction d with
  | nil => simp [dinsert]
  | cons hd tl ih =>
      obtain ⟨k1, v1⟩ := hd
      simp only [List.map_cons, List.mem_cons, not_or] at h
      have hne : ¬ k1 = k := fun h2 => h.1 h2.symm
      simp [dinsert, hne, ih h.2]

theorem storeGet_delete {Blob : Type} (st : Store Blob) (k k1 : String) :
    storeGet (storeDelete st k) k1 =
      if k1 = k then none else storeGet st k1 := by
  induction st with
  | nil => simp [storeDelete, storeGet]
  | cons hd tl ih =>
      obtain ⟨k2, b, ttl⟩ := hd
      by_cases h : k2 = k <;> by_cases h1 : k1 = k <;>
        by_cases h2 : k2 = k1 <;>
        simp_all [storeDelete, storeGet]

theorem storeGet_setex_self {Blob : Type} (st : Store Blob) (k : String)
    (ttl : Nat) (b : Blob) : storeGet (storeSetex st k ttl b) k =
      some (b, ttl) := by
  simp [storeSetex, storeGet]

theorem _redis_key_inj {a b : String} (h : _redis_key a = _redis_key b) :
    a = b := by
  unfold _redis_key at h
  have h2 := congrArg String.data h
  simp [String.data_append] at h2
  exact String.ext h2

theorem setAll_cons (s : Session) (kv : String × Value) (m : Data) :
    setAll s (kv :: m) = setAll (Session.setitem s kv.1 kv.2) m := rfl

theorem setAll_sid (m : Data) (s : Session) :
    (setAll s m)._sid = s._sid := by
  induction m generalizing s with
  | nil => rfl
  | cons kv m ih => rw [setAll_cons, ih]; rfl

theorem setAll_invalidated (m : Data) (s : Session) :
    (setAll s m).invalidated = s.invalidated := by
  induction m generalizing s with
  | nil => rfl
  | cons kv m ih => rw [setAll_cons, ih]; rfl

theorem setAll_changed_preserved (m : Data) (s : Session)
    (h : s._changed = true) : (setAll s m)._changed = true := by
  induction m generalizing s with
  | nil => exact h
  | cons kv m ih => rw [setAll_cons]; exact ih _ rfl

theorem setAll_changed_of_ne (m : Data) (s : Session) (h : m ≠ []) :
    (setAll s m)._changed = true := by
  match m with
  | [] => exact absurd rfl h
  | kv :: m => rw [setAll_cons]; exact setAll_changed_preserved m _ rfl

theorem setAll_data (m : Data) (s : Session) :
    (setAll s m).data =
      m.foldl (fun d kv => dinsert d kv.1 kv.2) s.data := by
  induction m generalizing s with
  | nil => rfl
  | cons kv m ih =>
      rw [setAll_cons, ih, List.foldl_cons]
      rfl

theorem foldl_dinsert_eq_append (m : Data) (d : Data)
    (hnd : (m.map Prod.fst).Nodup)
    (hdisj : ∀ k ∈ m.map Prod.fst, k ∉ d.map Prod.fst) :
    m.foldl (fun d kv => dinsert d kv.1 kv.2) d = d ++ m := by
  induction m generalizing d with
  | nil => simp
  | cons kv m ih =>
      obtain ⟨k, v⟩ := kv
      simp only [List.map_cons, List.nodup_cons] at hnd
      rw [List.foldl_cons]
      have hk : k ∉ d.map Prod.fst := hdisj k (by simp)
      rw [dinsert_of_not_mem d k v hk]
      rw [ih (d ++ [(k, v)]) hnd.2 ?_]
      · simp
      · intro k1 hk1
        simp only [List.map_append, List.mem_append, List.map_cons,
          List.map_nil, List.mem_singleton, not_or]
        refine ⟨fun hc => hdisj k1 (by simp [hk1]) hc, fun hc => ?_⟩
        exact hnd.1 (hc ▸ hk1)

theorem sidAccess_data (f : String) (s : Session) :
    (Session.sidAccess f s).2.data = s.data := by
  unfold Session.sidAccess
  cases s._sid <;> rfl

theorem sidAccess_changed (f : String) (s : Session) :
    (Session.sidAccess f s).2._changed = s._changed := by
  unfold Session.sidAccess
  cases s._sid <;> rfl

theorem sidAccess_sid (f : String) (s : Session) :
    (Session.sidAccess f s).2._sid = some (Session.sidAccess f s).1 := by
  unfold Session.sidAccess
  cases h : s._sid <;> simp [h]

theorem sidAccess_of_none (f : String) (s : Session) (h : s._sid = none) :
    Session.sidAccess f s = (f, { s with _sid := some f }) := by
  unfold Session.sidAccess
  rw [h]

theorem sidAccess_of_some (f : String) (s : Session) (t : String)
    (h : s._sid = some t) : Session.sidAccess f s = (t, s) := by
  unfold Session.sidAccess
  rw [h]

theorem storeGet_setex_ne {Blob : Type} (st : Store Blob) (k k1 : String)
    (ttl : Nat) (b : Blob) (h : k1 ≠ k) :
    storeGet (storeSetex st k ttl b) k1 = storeGet st k1 := by
  have hne : ¬ (k = k1) := fun hc => h hc.symm
  simp [storeSetex, storeGet, hne, storeGet_delete, h]

theorem save_branch {Blob : Type} (sign : String → String)
    (packb : Data → Blob) (f1 f2 : String) (sess : Session)
    (store : Store Blob) (scheme : String)
    (hinv : sess.invalidated = false) (hsave : sess._changed = true) :
    _process_response sign packb f1 f2 sess store scheme =
      ⟨(Session.sidAccess f2 sess).2,
       storeSetex store (_redis_key (Session.sidAccess f2 sess).1) max_age
         (packb sess.data),
       ⟨false, some ⟨cookie_name, sign (Session.sidAccess f2 sess).1,
                     max_age, true, scheme == "https"⟩⟩⟩ := by
  simp [_process_response, hinv, Session.should_save, hsave,
    Response.initial, sidAccess_data]

/-- C4: every mutating operation on the session data — setitem, delitem,
clear, pop, popitem, setdefault, update — sets the dirty flag
unconditionally (no hypothesis on the prior contents, so also when the
written value equals the existing one), and should_save returns exactly
the dirty flag. -/
theorem c4_mutators_dirty_unconditionally :
    (∀ (s : Session) (k : String) (v : Value),
        (Session.setitem s k v)._changed = true) ∧
    (∀ (s : Session) (k : String),
        (Session.delitem s k).1._changed = true) ∧
    (∀ (s : Session), (Session.clear s)._changed = true) ∧
    (∀ (s : Session) (k : String), (Session.pop s k).1._changed = true) ∧
    (∀ (s : Session), (Session.popitem s).1._changed = true) ∧
    (∀ (s : Session) (k : String) (d : Value),
        (Session.setdefault s k d).1._changed = true) ∧
    (∀ (s : Session) (m : Data), (Session.update s m)._changed = true) ∧
    (∀ (s : Session), Session.should_save s = s._changed) := by
  refine ⟨fun s k v => rfl, fun s k => ?_, fun s => rfl, fun s k => ?_,
    fun s => ?_, fun s k d => ?_, fun s m => rfl, fun s => rfl⟩
  · unfold Session.delitem
    dsimp only []
    split <;> rfl
  · unfold Session.pop
    dsimp only []
    split <;> rfl
  · unfold Session.popitem
    dsimp only []
    split <;> rfl
  · unfold Session.setdefault
    dsimp only []
    split <;> rfl

/-- C5: after invalidate the data mapping is empty, the session is new
again, created is reset to the current time, invalidated is set, the dirty
flag is cleared, and should_save is false. -/
theorem c5_invalidate_resets (s : Session) (now : Nat) :
    (Session.invalidate s now).data = [] ∧
    (Session.invalidate s now).new = true ∧
    (Session.invalidate s now).created = now ∧
    (Session.invalidate s now).invalidated = true ∧
    (Session.invalidate s now)._changed = false ∧
    Session.should_save (Session.invalidate s now) = false :=
  ⟨rfl, rfl, rfl, rfl, rfl, rfl⟩

/-- C2: evaluation of _process_request on a request whose cookie unsigns
successfully (to the identifier abc), whose store holds a blob at the
derived key, and whose blob decodes successfully. The data and identifier
are loaded, yet the constructed session has new = true, because the source
calls Session(data, session_id) without the third argument and the default
is new=True. The claim (and the spec) say the loaded session has
isNew = false. -/
theorem c2_loaded_session_left_marked_new :
    (_process_request (fun c _ => some c) (fun (d : Data) => some d)
        [("warehouse/session/data/abc",
          ([("counter", Value.int 1)] : Data), 43200)]
        (some "abc") 7).data = [("counter", Value.int 1)] ∧
    (_process_request (fun c _ => some c) (fun (d : Data) => some d)
        [("warehouse/session/data/abc",
          ([("counter", Value.int 1)] : Data), 43200)]
        (some "abc") 7)._sid = some "abc" ∧
    (_process_request (fun c _ => some c) (fun (d : Data) => some d)
        [("warehouse/session/data/abc",
          ([("counter", Value.int 1)] : Data), 43200)]
        (some "abc") 7).new = true := by
  refine ⟨?_, ?_, ?_⟩ <;> decide

/-- C8: on a fresh session with no existing flash queue, the very first
flash(x, allow_duplicate=False) call raises KeyError (modelled by none):
the source evaluates msg in self[queue_key] through the unwrapped dict
__getitem__ before any queue exists. The claim (and the spec) say the
message is enqueued once. -/
theorem c8_flash_dedup_first_call_raises :
    Session.flash (Session.init [] none true 0) "x" "" false = none := by
  decide

/-- C7: for a session whose stored unscoped CSRF token is t and whose
identifier is sid, get_scoped_csrf_token(scope) returns the keyed hash
(hmac_sha512, each application standing for a hex-encoded HMAC-SHA-512)
keyed by H2 over the message sid, where H2 is the keyed hash keyed by t
over the message scope. -/
theorem c7_scoped_csrf_token (hmac_sha512 : String → String → String)
    (fT fS : String) (s : Session) (t sid scope : String)
    (htok : dlookup s.data _csrf_token_key = some (Value.str t))
    (hsid : s._sid = some sid) :
    Session.get_scoped_csrf_token hmac_sha512 fT fS s scope =
      some (hmac_sha512 (hmac_sha512 t scope) sid, s) := by
  simp [Session.get_scoped_csrf_token, Session.get_csrf_token, htok,
    sidAccess_of_some fS s sid hsid]

/-- Witness for c7_scoped_csrf_token at a concrete session and hash. -/
theorem c7_scoped_csrf_token_witness :
    Session.get_scoped_csrf_token (fun k m => k ++ ":" ++ m) "f" "g"
        ⟨[("_csrf_token", Value.str "tok")], some "sid", false, false, 0,
         false⟩ "scope" =
      some ("tok:scope:sid",
            ⟨[("_csrf_token", Value.str "tok")], some "sid", false, false,
             0, false⟩) := by
  have h := c7_scoped_csrf_token (fun k m => k ++ ":" ++ m) "f" "g"
    ⟨[("_csrf_token", Value.str "tok")], some "sid", false, false, 0,
     false⟩ "tok" "sid" "scope" (by decide) rfl
  simpa using h

/-- C3: whenever the cookie is missing, the Signer rejects it (bad
signature or older than max_age = 43200 seconds), the store has no entry
under the derived key, or the stored blob fails to decode, then
_process_request returns a brand-new empty session: empty data, no
identifier, new = true. The embedding of _process_request is a total
function, so no exception reaches the caller on any of these paths. -/
theorem c3_fail_open {Blob : Type} (unsign : String → Nat → Option String)
    (unpackb : Blob → Option Data) (store : Store Blob)
    (cookies : Option String) (now : Nat)
    (h : cookies = none
       ∨ (∃ c, cookies = some c ∧ unsign c max_age = none)
       ∨ (∃ c sid, cookies = some c ∧ unsign c max_age = some sid ∧
            storeGet store (_redis_key sid) = none)
       ∨ (∃ c sid be, cookies = some c ∧ unsign c max_age = some sid ∧
            storeGet store (_redis_key sid) = some be ∧
            unpackb be.1 = none)) :
    _process_request unsign unpackb store cookies now =
      Session.init [] none true now ∧ max_age = 43200 := by
  refine ⟨?_, rfl⟩
  rcases h with h | ⟨c, hc, hu⟩ | ⟨c, sid, hc, hu, hs⟩ |
    ⟨c, sid, be, hc, hu, hs, hp⟩
  · simp [_process_request, h]
  · simp [_process_request, hc, hu]
  · simp [_process_request, hc, hu, hs]
  · simp [_process_request, hc, hu, hs, hp]

/-- Witness for c3_fail_open: a request with no cookie. -/
theorem c3_fail_open_witness :
    _process_request (fun _ _ => none) (fun (d : Data) => some d)
        ([] : Store Data) none 3 =
      Session.init [] none true 3 ∧ max_age = 43200 :=
  c3_fail_open (fun _ _ => none) (fun (d : Data) => some d) [] none 3
    (Or.inl rfl)

theorem max_age_eq : max_age = 43200 := rfl

theorem invalidated_save_outcome {Blob : Type} (sign : String → String)
    (packb : Data → Blob) (f1 f2 : String) (sess : Session)
    (store : Store Blob) (scheme : String)
    (hinv : sess.invalidated = true) (hsave : sess._changed = true) :
    _process_response sign packb f1 f2 sess store scheme =
      ⟨{ sess with _sid := some f2 },
       storeSetex
         (storeDelete store (_redis_key (Session.sidAccess f1 sess).1))
         (_redis_key f2) max_age (packb sess.data),
       ⟨false, some ⟨cookie_name, sign f2, max_age, true,
                     scheme == "https"⟩⟩⟩ := by
  cases h : sess._sid with
  | none =>
      simp [_process_response, hinv, Session.should_save, hsave,
        Response.initial, Session.delSid, sidAccess_of_none, h,
        Session.sidAccess]
  | some t =>
      simp [_process_response, hinv, Session.should_save, hsave,
        Response.initial, Session.delSid, sidAccess_of_some, h,
        Session.sidAccess]

theorem invalidated_nosave_outcome {Blob : Type} (sign : String → String)
    (packb : Data → Blob) (f1 f2 : String) (sess : Session)
    (store : Store Blob) (scheme : String)
    (hinv : sess.invalidated = true) (hsave : sess._changed = false) :
    _process_response sign packb f1 f2 sess store scheme =
      ⟨Session.delSid (Session.sidAccess f1 sess).2,
       storeDelete store (_redis_key (Session.sidAccess f1 sess).1),
       ⟨true, none⟩⟩ := by
  cases h : sess._sid with
  | none =>
      simp [_process_response, hinv, Session.should_save, hsave,
        Response.initial, Session.delSid, Session.sidAccess, h]
  | some t =>
      simp [_process_response, hinv, Session.should_save, hsave,
        Response.initial, Session.delSid, Session.sidAccess, h]

/-- C9: for any session with should_save() true, _process_response writes
the serialized session data to the store under the key
"warehouse/session/data/" followed by the session's identifier with
expiry 43200 seconds, and sets the response cookie to the signed
identifier with max-age 43200, httponly, and secure exactly when the
request scheme is https. -/
theorem c9_save_writes_store_and_cookie {Blob : Type}
    (sign : String → String) (packb : Data → Blob) (f1 f2 : String)
    (sess : Session) (store : Store Blob) (scheme : String)
    (hsave : Session.should_save sess = true) :
    ∃ sid,
      (_process_response sign packb f1 f2 sess store scheme).session._sid =
        some sid ∧
      storeGet (_process_response sign packb f1 f2 sess store scheme).store
          ("warehouse/session/data/" ++ sid) =
        some (packb sess.data, 43200) ∧
      (_process_response sign packb f1 f2 sess store
          scheme).response.cookieSet =
        some ⟨"session_id", sign sid, 43200, true, scheme == "https"⟩ := by
  have hch : sess._changed = true := hsave
  by_cases hinv : sess.invalidated = true
  · rw [invalidated_save_outcome sign packb f1 f2 sess store scheme hinv hch]
    exact ⟨f2, rfl, storeGet_setex_self _ _ _ _, rfl⟩
  · rw [save_branch sign packb f1 f2 sess store scheme
      (Bool.not_eq_true _ ▸ hinv) hch]
    exact ⟨(Session.sidAccess f2 sess).1, sidAccess_sid f2 sess,
      storeGet_setex_self _ _ _ _, rfl⟩

/-- Witness for c9_save_writes_store_and_cookie at a concrete dirty
session. -/
theorem c9_save_writes_store_and_cookie_witness :
    ∃ sid,
      (_process_response (fun x => x) (fun (d : Data) => d) "g1" "g2"
          ⟨[("k", Value.int 2)], none, true, true, 0, false⟩ []
          "https").session._sid = some sid ∧
      storeGet (_process_response (fun x => x) (fun (d : Data) => d) "g1"
          "g2" ⟨[("k", Value.int 2)], none, true, true, 0, false⟩ []
          "https").store ("warehouse/session/data/" ++ sid) =
        some ([("k", Value.int 2)], 43200) ∧
      (_process_response (fun x => x) (fun (d : Data) => d) "g1" "g2"
          ⟨[("k", Value.int 2)], none, true, true, 0, false⟩ []
          "https").response.cookieSet =
        some ⟨"session_id", sid, 43200, true, true⟩ :=
  c9_save_writes_store_and_cookie (fun x => x) (fun d => d) "g1" "g2"
    ⟨[("k", Value.int 2)], none, true, true, 0, false⟩ [] "https" rfl

/-- C6: for a response whose session is invalidated (with identifier sid0
and a freshly generated replacement token f2 distinct from it),
_process_response removes the store entry at the session's derived key and
resets the identifier; it instructs the response to delete the cookie
exactly when the session is not also dirty; and when the session is also
dirty the old key stays deleted while a new store entry and a new signed
cookie are issued in the same response. -/
theorem c6_invalidated_deletes_and_reissues {Blob : Type}
    (sign : String → String) (packb : Data → Blob) (f1 f2 : String)
    (sess : Session) (store : Store Blob) (scheme : String) (sid0 : String)
    (hinv : sess.invalidated = true) (hsid : sess._sid = some sid0)
    (hf : f2 ≠ sid0) :
    storeGet (_process_response sign packb f1 f2 sess store scheme).store
        (_redis_key sid0) = none ∧
    (_process_response sign packb f1 f2 sess store
        scheme).response.deletedCookie = !(Session.should_save sess) ∧
    (Session.should_save sess = false →
        (_process_response sign packb f1 f2 sess store
            scheme).session._sid = none ∧
        (_process_response sign packb f1 f2 sess store
            scheme).response.cookieSet = none) ∧
    (Session.should_save sess = true →
        (_process_response sign packb f1 f2 sess store
            scheme).session._sid = some f2 ∧
        storeGet (_process_response sign packb f1 f2 sess store
            scheme).store (_redis_key f2) =
          some (packb sess.data, max_age) ∧
        (_process_response sign packb f1 f2 sess store
            scheme).response.cookieSet =
          some ⟨cookie_name, sign f2, max_age, true,
                scheme == "https"⟩) := by
  have hkey : _redis_key sid0 ≠ _redis_key f2 :=
    fun hc => hf (_redis_key_inj hc).symm
  cases hch : sess._changed with
  | false =>
      rw [invalidated_nosave_outcome sign packb f1 f2 sess store scheme
        hinv hch]
      rw [sidAccess_of_some f1 sess sid0 hsid]
      refine ⟨?_, ?_, fun _ => ⟨rfl, rfl⟩, fun hc => ?_⟩
      · rw [storeGet_delete]
        simp
      · simp [Session.should_save, hch]
      · rw [Session.should_save, hch] at hc
        exact absurd hc (by simp)
  | true =>
      rw [invalidated_save_outcome sign packb f1 f2 sess store scheme
        hinv hch]
      rw [sidAccess_of_some f1 sess sid0 hsid]
      refine ⟨?_, ?_, fun hc => ?_, fun _ => ⟨rfl, ?_, rfl⟩⟩
      · rw [storeGet_setex_ne _ _ _ _ _ hkey, storeGet_delete]
        simp
      · simp [Session.should_save, hch]
      · rw [Session.should_save, hch] at hc
        exact absurd hc (by simp)
      · exact storeGet_setex_self _ _ _ _

/-- Witness for c6_invalidated_deletes_and_reissues: an invalidated,
non-dirty session with identifier old, and a store holding an entry at its
derived key. -/
theorem c6_invalidated_deletes_and_reissues_witness :
    storeGet (_process_response (fun x => x) (fun (d : Data) => d) "g1"
        "g2" ⟨[], some "old", false, true, 0, true⟩
        [("warehouse/session/data/old", ([("k", Value.int 3)] : Data),
          43200)] "https").store (_redis_key "old") = none ∧
    (_process_response (fun x => x) (fun (d : Data) => d) "g1" "g2"
        ⟨[], some "old", false, true, 0, true⟩
        [("warehouse/session/data/old", ([("k", Value.int 3)] : Data),
          43200)] "https").response.deletedCookie =
      !(Session.should_save ⟨[], some "old", false, true, 0, true⟩) ∧
    (Session.should_save ⟨[], some "old", false, true, 0, true⟩ = false →
        (_process_response (fun x => x) (fun (d : Data) => d) "g1" "g2"
            ⟨[], some "old", false, true, 0, true⟩
            [("warehouse/session/data/old", ([("k", Value.int 3)] : Data),
              43200)] "https").session._sid = none ∧
        (_process_response (fun x => x) (fun (d : Data) => d) "g1" "g2"
            ⟨[], some "old", false, true, 0, true⟩
            [("warehouse/session/data/old", ([("k", Value.int 3)] : Data),
              43200)] "https").response.cookieSet = none) ∧
    (Session.should_save ⟨[], some "old", false, true, 0, true⟩ = true →
        (_process_response (fun x => x) (fun (d : Data) => d) "g1" "g2"
            ⟨[], some "old", false, true, 0, true⟩
            [("warehouse/session/data/old", ([("k", Value.int 3)] : Data),
              43200)] "https").session._sid = some "g2" ∧
        storeGet (_process_response (fun x => x) (fun (d : Data) => d)
            "g1" "g2" ⟨[], some "old", false, true, 0, true⟩
            [("warehouse/session/data/old", ([("k", Value.int 3)] : Data),
              43200)] "https").store (_redis_key "g2") =
          some ([], max_age) ∧
        (_process_response (fun x => x) (fun (d : Data) => d) "g1" "g2"
            ⟨[], some "old", false, true, 0, true⟩
            [("warehouse/session/data/old", ([("k", Value.int 3)] : Data),
              43200)] "https").response.cookieSet =
          some ⟨cookie_name, "g2", max_age, true, "https" == "https"⟩) :=
  c6_invalidated_deletes_and_reissues (fun x => x) (fun d => d) "g1" "g2"
    ⟨[], some "old", false, true, 0, true⟩
    [("warehouse/session/data/old", [("k", Value.int 3)], 43200)] "https"
    "old" rfl rfl (by decide)

/-- C10: on a session whose data lacks the reserved CSRF key, a nominal
read via get_csrf_token stores a freshly generated token under the
reserved key and marks the session dirty (so should_save becomes true);
the same generation happens through get_scoped_csrf_token; and the next
_process_response then issues a cookie and a store write of the updated
data. -/
theorem c10_csrf_read_marks_dirty_and_persists {Blob : Type} (s : Session)
    (fresh : String) (sign : String → String) (packb : Data → Blob)
    (f1 f2 : String) (store : Store Blob) (scheme : String)
    (habs : dlookup s.data _csrf_token_key = none)
    (hinv : s.invalidated = false) :
    (Session.get_csrf_token fresh s).1 = Value.str fresh ∧
    dlookup (Session.get_csrf_token fresh s).2.data _csrf_token_key =
      some (Value.str fresh) ∧
    (Session.get_csrf_token fresh s).2._changed = true ∧
    Session.should_save (Session.get_csrf_token fresh s).2 = true ∧
    (∀ (H : String → String → String) (fS scope : String),
        (Session.get_scoped_csrf_token H fresh fS s scope).map
          (fun p => p.2._changed) = some true) ∧
    (_process_response sign packb f1 f2 (Session.get_csrf_token fresh s).2
        store scheme).response.cookieSet.isSome = true ∧
    (∃ sid, storeGet (_process_response sign packb f1 f2
        (Session.get_csrf_token fresh s).2 store scheme).store
          (_redis_key sid) =
      some (packb (Session.get_csrf_token fresh s).2.data, max_age)) := by
  have hout : Session.get_csrf_token fresh s =
      (Value.str fresh,
       Session.setitem s _csrf_token_key (Value.str fresh)) := by
    simp [Session.get_csrf_token, habs, Session.new_csrf_token]
  rw [hout]
  refine ⟨rfl, ?_, rfl, rfl, ?_, ?_, ?_⟩
  · exact dlookup_dinsert_self s.data _csrf_token_key (Value.str fresh)
  · intro H fS scope
    simp [Session.get_scoped_csrf_token, Session.get_csrf_token, habs,
      Session.new_csrf_token, sidAccess_changed, Session.setitem,
      Session.changed]
  · dsimp only []
    rw [save_branch sign packb f1 f2
      (Session.setitem s _csrf_token_key (Value.str fresh)) store scheme
      hinv rfl]
    rfl
  · refine ⟨(Session.sidAccess f2
      (Session.setitem s _csrf_token_key (Value.str fresh))).1, ?_⟩
    dsimp only []
    rw [save_branch sign packb f1 f2
      (Session.setitem s _csrf_token_key (Value.str fresh)) store scheme
      hinv rfl]
    exact storeGet_setex_self _ _ _ _

/-- Witness for c10_csrf_read_marks_dirty_and_persists at a fresh empty
session. -/
theorem c10_csrf_read_marks_dirty_and_persists_witness :
    (Session.get_csrf_token "tok" (Session.init [] none true 0)).1 =
      Value.str "tok" ∧
    dlookup (Session.get_csrf_token "tok"
        (Session.init [] none true 0)).2.data _csrf_token_key =
      some (Value.str "tok") ∧
    (Session.get_csrf_token "tok"
        (Session.init [] none true 0)).2._changed = true ∧
    Session.should_save (Session.get_csrf_token "tok"
        (Session.init [] none true 0)).2 = true ∧
    (∀ (H : String → String → String) (fS scope : String),
        (Session.get_scoped_csrf_token H "tok" fS
            (Session.init [] none true 0) scope).map
          (fun p => p.2._changed) = some true) ∧
    (_process_response (fun x => x) (fun (d : Data) => d) "g1" "g2"
        (Session.get_csrf_token "tok" (Session.init [] none true 0)).2 []
        "http").response.cookieSet.isSome = true ∧
    (∃ sid, storeGet (_process_response (fun x => x) (fun (d : Data) => d)
        "g1" "g2" (Session.get_csrf_token "tok"
          (Session.init [] none true 0)).2 [] "http").store
          (_redis_key sid) =
      some ((Session.get_csrf_token "tok"
        (Session.init [] none true 0)).2.data, max_age)) :=
  c10_csrf_read_marks_dirty_and_persists (Session.init [] none true 0)
    "tok" (fun x => x) (fun d => d) "g1" "g2" [] "http" rfl rfl

/-- C1: round trip. For any mapping m of supported values with distinct
keys, and any Signer and Serializer satisfying their spec contracts
(unsign inverts sign within max_age; unpackb inverts packb), constructing
a new session, setting each entry of m, running _process_response, and
then loading a request that presents the resulting cookie value yields a
session whose data equals m. When m is empty nothing is dirty, no cookie
is issued, and the reloaded empty session still has data m. -/
theorem c1_round_trip {Blob : Type} (sign : String → String)
    (unsign : String → Nat → Option String) (packb : Data → Blob)
    (unpackb : Blob → Option Data)
    (hsig : ∀ x, unsign (sign x) max_age = some x)
    (hser : ∀ d, unpackb (packb d) = some d)
    (m : Data) (hnd : (m.map Prod.fst).Nodup)
    (store : Store Blob) (now1 now2 : Nat) (f1 f2 : String)
    (scheme : String) :
    (_process_request unsign unpackb
        (_process_response sign packb f1 f2
            (setAll (Session.init [] none true now1) m) store scheme).store
        ((_process_response sign packb f1 f2
            (setAll (Session.init [] none true now1) m) store
            scheme).response.cookieSet.map SetCookie.value)
        now2).data = m := by
  by_cases hm : m = []
  · subst hm
    rfl
  · have hs1inv : (setAll (Session.init [] none true now1) m).invalidated =
        false := by
      rw [setAll_invalidated]
      rfl
    have hs1ch : (setAll (Session.init [] none true now1) m)._changed =
        true := setAll_changed_of_ne m _ hm
    have hs1sid : (setAll (Session.init [] none true now1) m)._sid =
        none := by
      rw [setAll_sid]
      rfl
    have hdata : (setAll (Session.init [] none true now1) m).data = m := by
      rw [setAll_data]
      have h2 := foldl_dinsert_eq_append m [] hnd (by simp)
      simpa using h2
    rw [save_branch sign packb f1 f2 _ store scheme hs1inv hs1ch]
    rw [sidAccess_of_none f2 _ hs1sid]
    rw [hdata]
    simp [_process_request, hsig, storeGet_setex_self, hser, Session.init]

/-- Witness for c1_round_trip on the mapping counter to 1, with the
identity Signer and Serializer instances. -/
theorem c1_round_trip_witness :
    (_process_request (fun c _ => some c) (fun (d : Data) => some d)
        (_process_response (fun x => x) (fun (d : Data) => d) "t1" "t2"
            (setAll (Session.init [] none true 5)
              [("counter", Value.int 1)]) [] "https").store
        ((_process_response (fun x => x) (fun (d : Data) => d) "t1" "t2"
            (setAll (Session.init [] none true 5)
              [("counter", Value.int 1)]) []
            "https").response.cookieSet.map SetCookie.value)
        6).data = [("counter", Value.int 1)] :=
  c1_round_trip (fun x => x) (fun c _ => some c) (fun d => d)
    (fun d => some d) (fun x => rfl) (fun d => rfl)
    [("counter", Value.int 1)] (by decide) [] 5 6 "t1" "t2" "https"
